import Mathlib

/-!
Verification of the training-script templates of the Youman.ai repository
(`pytorch_train.py` and `tensorflow_train.py`) against their natural-language
specification.  The Python scripts are shallowly embedded as executable Lean
definitions: pure pieces (data loading, feature encoding, configuration
resolution, metrics assembly) become Lean functions, and the effectful run of
`train_model`/`main` becomes a function producing an explicit event trace plus
an `Except` result, with exit codes modelled as naturals.  External backend
calls (the HuggingFace `Trainer`, Keras `fit`) are opaque collaborators: their
outcomes are inputs of the run environment, while everything the scripts
themselves compute is translated faithfully from the source.
-/

/-- A JSON record of the training files, restricted to the text fields the
scripts read (`input` / `output`); modelled as an association list of
string-valued fields, which is all `pytorch_train.py` ever accesses. -/
abbrev Record := List (String × String)

/-- Metrics records are assembled as insertion-ordered key/value lists
(Python dicts preserve insertion order); numeric values are modelled as
rationals. -/
abbrev MetricsRecord := List (String × Rat)

/-- Python `str.endswith`, over the character lists of the strings. -/
def strEndsWith (s p : String) : Bool :=
  List.isSuffixOf p.data s.data

/-- The list comprehension `[json.loads(line) for line in f]` from
`pytorch_train.py` line 33 / `tensorflow_train.py` line 31: parse each line in
order, the first parse failure aborting the whole load.  The per-line parser
is abstract (`json.loads` internals are outside the repository). -/
def parseLines (parseLine : String → Option α) : List String → Option (List α)
  | [] => some []
  | l :: ls =>
    match parseLine l with
    | none => none
    | some r =>
      match parseLines parseLine ls with
      | none => none
      | some rs => some (r :: rs)

/-- `Example Store.load`: the load expression of `HumanizationDataset.__init__`
(`pytorch_train.py` lines 32-33) and `load_data` (`tensorflow_train.py` lines
26-31): a `.json`-suffixed path is parsed as one structured document (the
whole file contents), any other path line by line.  The file is modelled as
its list of lines; the document and line parsers are abstract. -/
def load (parseDoc : String → Option (List α)) (parseLine : String → Option α)
    (path : String) (fileLines : List String) : Option (List α) :=
  if strEndsWith path ".json" then parseDoc (String.intercalate "\n" fileLines)
  else parseLines parseLine fileLines

/-- `HumanizationDataset.__init__` (lines 27-35): parses and stores the
records; no schema validation of the `input`/`output` fields happens here. -/
def hdInitData (parseDoc : String → Option (List Record))
    (parseLine : String → Option Record) (path : String)
    (fileLines : List String) : Option (List Record) :=
  load parseDoc parseLine path fileLines

/-- Field access `item[k]` on a JSON record. -/
def lookupField (r : Record) (k : String) : Option String :=
  (r.find? (fun p => p.1 == k)).map Prod.snd

/-- `EncodedExample`: the dictionary returned by
`HumanizationDataset.__getitem__` (lines 62-66): token ids and attention mask
of the source text, and the target token ids as labels. -/
structure EncodedExample where
  input_ids : List Nat
  attention_mask : List Nat
  label_ids : List Nat
deriving DecidableEq, Repr

/-- The tokenizer call with `padding='max_length', truncation=True`
(lines 46-60): truncate the token sequence to `L`, then pad with the reserved
padding token up to exactly `L`. -/
def padTruncate (L padTok : Nat) (xs : List Nat) : List Nat :=
  let t := xs.take L
  t ++ List.replicate (L - t.length) padTok

/-- The attention mask produced alongside: 1 on the real token positions,
0 on the padding positions. -/
def attnMask (L : Nat) (xs : List Nat) : List Nat :=
  List.replicate (min xs.length L) 1 ++ List.replicate (L - min xs.length L) 0

/-- `Feature Encoder.encode`: the body of `__getitem__` after field access
(lines 46-66), abstracting the tokenizer to a function from text to token
ids. -/
def encode (tok : String → List Nat) (L padTok : Nat)
    (source target : String) : EncodedExample :=
  let ids := tok source
  let tids := tok target
  EncodedExample.mk (padTruncate L padTok ids) (attnMask L ids)
    (padTruncate L padTok tids)

/-- Errors a run can abort with; Python exception classes flattened to the
cases the scripts can actually raise. -/
inductive RunError where
  | fileNotFound
  | formatError
  | keyError
  | indexError
  | trainingFailure
  | evalFailure
deriving DecidableEq, Repr

/-- `HumanizationDataset.__getitem__` (lines 40-66): fetch the record, read
its `input` and `output` fields (a missing field raises `KeyError`), then
encode. -/
def hdGetItem (tok : String → List Nat) (L padTok : Nat)
    (data : List Record) (idx : Nat) : Except RunError EncodedExample :=
  match data.get? idx with
  | none => Except.error RunError.indexError
  | some item =>
    match lookupField item "input" with
    | none => Except.error RunError.keyError
    | some orig =>
      match lookupField item "output" with
      | none => Except.error RunError.keyError
      | some hum => Except.ok (encode tok L padTok orig hum)

/-- `TrainingConfig`: the configuration mapping, every key optional
(`config.get(key, default)` in the scripts). -/
structure Config where
  max_length : Option Nat := none
  epochs : Option Nat := none
  batch_size : Option Nat := none
  learning_rate : Option Rat := none
  warmup_steps : Option Nat := none
  logging_steps : Option Nat := none
  save_steps : Option Nat := none
  eval_steps : Option Nat := none
  save_total_limit : Option Nat := none
  fp16 : Option Bool := none
  num_workers : Option Nat := none
  vocab_size : Option Nat := none
  embedding_dim : Option Nat := none
  hidden_units : Option Nat := none
  early_stopping_patience : Option Nat := none
deriving DecidableEq, Repr

/-- The `TrainingArguments` object built by `pytorch_train.py` lines 95-114. -/
structure TrainingArgs where
  output_dir : String
  num_train_epochs : Nat
  per_device_train_batch_size : Nat
  per_device_eval_batch_size : Nat
  learning_rate : Rat
  warmup_steps : Nat
  logging_dir : String
  logging_steps : Nat
  save_steps : Nat
  eval_steps : Option Nat
  evaluation_strategy : String
  save_total_limit : Nat
  load_best_model_at_end : Bool
  metric_for_best_model : String
  greater_is_better : Bool
  fp16 : Bool
  dataloader_num_workers : Nat
  report_to : String
deriving DecidableEq, Repr

/-- `TrainingArguments(...)` of `pytorch_train.py` lines 95-114; `v` is the
truthiness of `val_dataset` at that point (lines 105-108 test
`if val_dataset`). -/
def mkTrainingArgs (outputDir : String) (cfg : Config) (v : Bool) :
    TrainingArgs where
  output_dir := outputDir
  num_train_epochs := cfg.epochs.getD 10
  per_device_train_batch_size := cfg.batch_size.getD 8
  per_device_eval_batch_size := cfg.batch_size.getD 8
  learning_rate := cfg.learning_rate.getD (5e-5 : Rat)
  warmup_steps := cfg.warmup_steps.getD 500
  logging_dir := outputDir ++ "/logs"
  logging_steps := cfg.logging_steps.getD 100
  save_steps := cfg.save_steps.getD 1000
  eval_steps := if v then some (cfg.eval_steps.getD 500) else none
  evaluation_strategy := if v then "steps" else "no"
  save_total_limit := cfg.save_total_limit.getD 3
  load_best_model_at_end := v
  metric_for_best_model := "loss"
  greater_is_better := false
  fp16 := cfg.fp16.getD false
  dataloader_num_workers := cfg.num_workers.getD 4
  report_to := "none"

/-- The result object of `trainer.train()` as read by lines 136-139: the
training loss and the `train_runtime` / `train_samples_per_second` / `epoch`
entries of its metrics dictionary (their `dict.get` defaults of 0 are folded
into the backend-supplied values, which are opaque to the script). -/
structure TrainResult where
  training_loss : Rat
  train_runtime : Rat
  train_samples_per_second : Rat
  epoch : Rat
deriving DecidableEq, Repr

/-- Observable actions of a PyTorch-script run, in program order: data loads,
the backend `trainer.train()` call (carrying the `TrainingArguments` it was
configured with), the final model/tokenizer saves, the optional
`trainer.evaluate()` call, file writes and standard-output prints. -/
inductive Event where
  | loadTrainData
  | loadValData
  | trainerTrain (args : TrainingArgs)
  | saveModel
  | saveTokenizer
  | evaluate
  | writeFile (path : String)
  | printLine (line : String)
deriving DecidableEq, Repr

/-- `os.path.join(output_dir, 'training_metrics.json')` (line 149). -/
def metricsPath (outputDir : String) : String :=
  outputDir ++ "/training_metrics.json"

/-- Rendering of a metric value for the `METRICS:` line; the scripts print
floats via `json.dumps`, here the exact rational is printed — only the
single-line `METRICS: ` format matters to the spec, not the number syntax. -/
def ratStr (q : Rat) : String :=
  toString q.num ++ "/" ++ toString q.den

/-- `json.dumps(metrics)` on a metrics record: one-line JSON object in key
insertion order. -/
def jsonDumps (m : MetricsRecord) : String :=
  "\x7b" ++ String.intercalate ", "
    (m.map (fun kv => "\x22" ++ kv.1 ++ "\x22: " ++ ratStr kv.2)) ++ "\x7d"

/-- The run environment of the PyTorch script: which input files exist and
parse, what the abstract backend calls return or whether they raise.  The
record lists carry the parsed contents of the data files. -/
structure RunEnv where
  configOk : Bool
  trainDataExists : Bool
  trainDataParses : Bool
  valDataPath : Option String
  valDataExists : Bool
  valDataParses : Bool
  valRecords : List Record
  trainFails : Bool
  evalFails : Bool
  trainResult : TrainResult
  evalLoss : Rat
deriving Repr

/-- The condition of `pytorch_train.py` line 90,
`if val_data_path and os.path.exists(val_data_path)`: the path argument is
truthy (given and non-empty) and the file exists; exactly then `val_dataset`
is constructed. -/
def valDatasetLoaded (env : RunEnv) : Bool :=
  match env.valDataPath with
  | none => false
  | some p => (p != "") && env.valDataExists

/-- Truthiness of `val_dataset` in `if val_dataset` (lines 105-108 and 142):
`None` is falsy, and a `HumanizationDataset` defines `__len__`, so a loaded
but empty dataset is falsy too. -/
def valDatasetTruthy (env : RunEnv) : Bool :=
  valDatasetLoaded env && !env.valRecords.isEmpty

/-- The four-entry metrics dictionary of lines 135-140. -/
def pytorchBaseMetrics (tr : TrainResult) : MetricsRecord :=
  [("train_loss", tr.training_loss),
   ("train_runtime", tr.train_runtime),
   ("train_samples_per_second", tr.train_samples_per_second),
   ("epoch", tr.epoch)]

/-- The finalized metrics of a successful PyTorch run: the base metrics,
extended with `eval_loss` exactly when `val_dataset` is truthy
(lines 142-146). -/
def pytorchSuccessMetrics (env : RunEnv) : MetricsRecord :=
  if valDatasetTruthy env then
    pytorchBaseMetrics env.trainResult ++ [("eval_loss", env.evalLoss)]
  else pytorchBaseMetrics env.trainResult

/-- Events up to and including the data loads (lines 87-92). -/
def preTrainTrace (env : RunEnv) : List Event :=
  Event.loadTrainData ::
    (if valDatasetLoaded env then [Event.loadValData] else [])

/-- Events up to and including the final model save (lines 127-132):
training, then `trainer.save_model()` and `tokenizer.save_pretrained`. -/
def postSaveTrace (env : RunEnv) (outputDir : String) (cfg : Config) :
    List Event :=
  preTrainTrace env ++
    [Event.trainerTrain (mkTrainingArgs outputDir cfg (valDatasetTruthy env)),
     Event.saveModel, Event.saveTokenizer]

/-- The full event trace of a successful `train_model` call (lines 78-155):
loads, training, model save, the conditional final evaluation, and last the
metrics-file write. -/
def pytorchSuccessTrace (env : RunEnv) (outputDir : String) (cfg : Config) :
    List Event :=
  postSaveTrace env outputDir cfg ++
    (if valDatasetTruthy env then [Event.evaluate] else []) ++
    [Event.writeFile (metricsPath outputDir)]

/-- `train_model` of `pytorch_train.py` (lines 69-155) as a trace/result
function: each fatal error aborts with the events performed so far; on
success the metrics record is returned after being written to
`training_metrics.json`. -/
def pytorchTrainModel (env : RunEnv) (outputDir : String) (cfg : Config) :
    List Event × Except RunError MetricsRecord :=
  if !env.trainDataExists then ([], Except.error RunError.fileNotFound)
  else if !env.trainDataParses then ([], Except.error RunError.formatError)
  else if valDatasetLoaded env && !env.valDataParses then
    ([Event.loadTrainData], Except.error RunError.formatError)
  else if env.trainFails then
    (preTrainTrace env, Except.error RunError.trainingFailure)
  else if valDatasetTruthy env && env.evalFails then
    (postSaveTrace env outputDir cfg, Except.error RunError.evalFailure)
  else
    (pytorchSuccessTrace env outputDir cfg,
     Except.ok (pytorchSuccessMetrics env))

/-- `main` of `pytorch_train.py` (lines 158-188): load the config file, run
`train_model`, and on success print the single `METRICS:` line and exit 0;
any uncaught exception exits the process with status 1. -/
def pytorchMain (env : RunEnv) (outputDir : String) (cfg : Config) :
    Nat × List Event :=
  if !env.configOk then (1, [])
  else
    match pytorchTrainModel env outputDir cfg with
    | (tr, Except.error _) => (1, tr)
    | (tr, Except.ok m) =>
      (0, tr ++ [Event.printLine ("METRICS: " ++ jsonDumps m)])

/-- The Keras `History` object as read by `tensorflow_train.py` lines
142-152: per-epoch metric lists under the keys the script accesses.  The
backend `fit` call is opaque; the lists are environment-supplied. -/
structure TFHistory where
  loss : List Rat
  accuracy : List Rat
  val_loss : List Rat
  val_accuracy : List Rat
deriving DecidableEq, Repr

/-- The three Keras callbacks constructed by `tensorflow_train.py` lines
103-121, with the constructor arguments the script passes. -/
inductive KerasCallback where
  | modelCheckpoint (filepath monitor : String) (save_best_only : Bool)
  | earlyStopping (monitor : String) (patience : Nat)
  | reduceLROnPlateau (monitor : String) (factor : Rat) (patience : Nat)
deriving DecidableEq, Repr

/-- The checkpoint filename template of line 105 (the epoch and val-loss
placeholders rendered per write), joined under `output_dir/checkpoints`. -/
def tfCheckpointPath (outputDir : String) : String :=
  outputDir ++ "/checkpoints/checkpoint-\x7bepoch:02d\x7d-\x7bval_loss:.2f\x7d.h5"

/-- `callbacks_list` of `tensorflow_train.py` lines 103-121: built
unconditionally (no branch on the presence of validation data), every
callback monitoring `val_loss`. -/
def tfCallbacksList (outputDir : String) (cfg : Config) : List KerasCallback :=
  [KerasCallback.modelCheckpoint (tfCheckpointPath outputDir) "val_loss" true,
   KerasCallback.earlyStopping "val_loss" (cfg.early_stopping_patience.getD 3),
   KerasCallback.reduceLROnPlateau "val_loss" (1/2) 2]

/-- The callbacks handed to the PyTorch `Trainer` (lines 117-123): the
constructor receives model, args, datasets and tokenizer only — no
`callbacks` argument, so the script installs no early-stopping and no
LR-plateau callback. -/
def pytorchTrainerCallbacks : List KerasCallback := []

/-- The metrics dictionary of `tensorflow_train.py` lines 142-152: final
train loss/accuracy and epoch count, extended with the final validation
metrics exactly when `val_data` is truthy (a non-empty loaded list);
`history.history[k][-1]` on an empty list raises, hence the `Option`. -/
def tfMetrics (h : TFHistory) (valTruthy : Bool) : Option MetricsRecord :=
  match h.loss.getLast? with
  | none => none
  | some l =>
    match h.accuracy.getLast? with
    | none => none
    | some a =>
      let base : MetricsRecord :=
        [("final_train_loss", l), ("final_train_accuracy", a),
         ("epochs_trained", (h.loss.length : Rat))]
      if valTruthy then
        match h.val_loss.getLast? with
        | none => none
        | some vl =>
          match h.val_accuracy.getLast? with
          | none => none
          | some va =>
            some (base ++ [("final_val_loss", vl), ("final_val_accuracy", va)])
      else some base

/-- The run environment of the TensorFlow script, analogous to `RunEnv`. -/
structure TFEnv where
  configOk : Bool
  trainDataExists : Bool
  trainDataParses : Bool
  valDataPath : Option String
  valDataExists : Bool
  valDataParses : Bool
  valRecords : List Record
  fitFails : Bool
  history : TFHistory
deriving Repr

/-- `tensorflow_train.py` line 77: `if val_data_path and
os.path.exists(val_data_path)`. -/
def tfValLoaded (env : TFEnv) : Bool :=
  match env.valDataPath with
  | none => false
  | some p => (p != "") && env.valDataExists

/-- Truthiness of `val_data` at line 148: a loaded, non-empty record list. -/
def tfValTruthy (env : TFEnv) : Bool :=
  tfValLoaded env && !env.valRecords.isEmpty

/-- Observable actions of a TensorFlow-script run; the `fit` event carries
the callbacks list and the epoch/batch-size arguments of lines 128-135. -/
inductive TFEvent where
  | loadTrainData
  | loadValData
  | fit (cbs : List KerasCallback) (epochs batchSize : Nat)
  | saveModel
  | writeFile (path : String)
  | printLine (line : String)
deriving DecidableEq, Repr

/-- The `model.fit` call of lines 128-135: callbacks always included,
`epochs`/`batch_size` from the config with the from-scratch defaults. -/
def tfFitEvent (outputDir : String) (cfg : Config) : TFEvent :=
  TFEvent.fit (tfCallbacksList outputDir cfg) (cfg.epochs.getD 10)
    (cfg.batch_size.getD 32)

/-- Events up to and including the data loads (lines 74-79). -/
def tfPreTrace (env : TFEnv) : List TFEvent :=
  TFEvent.loadTrainData ::
    (if tfValLoaded env then [TFEvent.loadValData] else [])

/-- Events up to and including `model.save` (line 139). -/
def tfPostSaveTrace (env : TFEnv) (outputDir : String) (cfg : Config) :
    List TFEvent :=
  tfPreTrace env ++ [tfFitEvent outputDir cfg, TFEvent.saveModel]

/-- The full event trace of a successful TensorFlow `train_model` call:
loads, fit, model save, and last the metrics-file write (lines 154-156). -/
def tfSuccessTrace (env : TFEnv) (outputDir : String) (cfg : Config) :
    List TFEvent :=
  tfPostSaveTrace env outputDir cfg ++
    [TFEvent.writeFile (metricsPath outputDir)]

/-- `train_model` of `tensorflow_train.py` (lines 62-160) as a trace/result
function; the data arguments of `fit` are commented out in the source, so
`fit` is modelled purely as the opaque backend call returning the history. -/
def tfTrainModel (env : TFEnv) (outputDir : String) (cfg : Config) :
    List TFEvent × Except RunError MetricsRecord :=
  if !env.trainDataExists then ([], Except.error RunError.fileNotFound)
  else if !env.trainDataParses then ([], Except.error RunError.formatError)
  else if tfValLoaded env && !env.valDataParses then
    ([TFEvent.loadTrainData], Except.error RunError.formatError)
  else if env.fitFails then
    (tfPreTrace env, Except.error RunError.trainingFailure)
  else
    match tfMetrics env.history (tfValTruthy env) with
    | none =>
      (tfPostSaveTrace env outputDir cfg, Except.error RunError.indexError)
    | some m => (tfSuccessTrace env outputDir cfg, Except.ok m)

/-- `main` of `tensorflow_train.py` (lines 163-191), analogous to
`pytorchMain`. -/
def tfMain (env : TFEnv) (outputDir : String) (cfg : Config) :
    Nat × List TFEvent :=
  if !env.configOk then (1, [])
  else
    match tfTrainModel env outputDir cfg with
    | (tr, Except.error _) => (1, tr)
    | (tr, Except.ok m) =>
      (0, tr ++ [TFEvent.printLine ("METRICS: " ++ jsonDumps m)])

/-- Replace the `save_total_limit` entry of a configuration, leaving every
other key unchanged. -/
def setSaveTotalLimit (cfg : Config) (k : Option Nat) : Config :=
  { cfg with save_total_limit := k }

/-- Modelled from the spec: the write behavior of the checkpointing callback
is implemented inside the external Keras library (`callbacks.ModelCheckpoint`
is only configured, not defined, in this repository).  Spec section 4.4
describes it as persisting the best-so-far model by monitored validation
loss; this function lists the (epoch, loss) checkpoint writes that policy
performs over a sequence of per-round validation losses.  Each write lands in
a distinct file because the filename template of `tensorflow_train.py` line
105 embeds the epoch number, and nothing in the repository deletes checkpoint
files afterwards. -/
def bestSoFarWritesAux (best : Option Rat) (i : Nat) :
    List Rat → List (Nat × Rat)
  | [] => []
  | l :: ls =>
    match best with
    | none => (i, l) :: bestSoFarWritesAux (some l) (i + 1) ls
    | some b =>
      if l < b then (i, l) :: bestSoFarWritesAux (some l) (i + 1) ls
      else bestSoFarWritesAux (some b) (i + 1) ls

/-- The checkpoint artifacts present on disk after a TensorFlow run whose
evaluation rounds produced the given validation losses: every best-so-far
write is retained (see `bestSoFarWritesAux`; no retention limit is ever
configured in `tensorflow_train.py`, and `save_total_limit` is not read by
that script at all). -/
def tfCheckpointFiles (valLosses : List Rat) : List (Nat × Rat) :=
  bestSoFarWritesAux none 1 valLosses

/-- Is this event a print to standard output? -/
def isPrintEvent : Event → Bool
  | Event.printLine _ => true
  | _ => false

/-- Is this event the write of `<output_dir>/training_metrics.json`? -/
def isMetricsFileWrite (outputDir : String) : Event → Bool
  | Event.writeFile p => p == metricsPath outputDir
  | _ => false

/-- An aborted-run trace is clean when it contains neither a metrics-file
write nor any standard-output print. -/
def abortClean (outputDir : String) (tr : List Event) : Bool :=
  tr.all (fun e => !isPrintEvent e && !isMetricsFileWrite outputDir e)

/-- A defaulted configuration: every key absent. -/
def cfg0 : Config := {}

/-- A successful PyTorch run environment without validation data. -/
def envOk : RunEnv where
  configOk := true
  trainDataExists := true
  trainDataParses := true
  valDataPath := none
  valDataExists := false
  valDataParses := true
  valRecords := []
  trainFails := false
  evalFails := false
  trainResult := TrainResult.mk 1 2 3 1
  evalLoss := 0

/-- A successful PyTorch run environment with a non-empty validation set. -/
def envVal : RunEnv where
  configOk := true
  trainDataExists := true
  trainDataParses := true
  valDataPath := some "val.jsonl"
  valDataExists := true
  valDataParses := true
  valRecords := [[("input", "a"), ("output", "b")]]
  trainFails := false
  evalFails := false
  trainResult := TrainResult.mk 1 2 3 1
  evalLoss := 4

/-- A PyTorch run environment whose validation path exists but whose
validation file holds zero records. -/
def envEmptyVal : RunEnv where
  configOk := true
  trainDataExists := true
  trainDataParses := true
  valDataPath := some "val.json"
  valDataExists := true
  valDataParses := true
  valRecords := []
  trainFails := false
  evalFails := false
  trainResult := TrainResult.mk 1 2 3 1
  evalLoss := 4

/-- A successful TensorFlow run environment without validation data; the
backend history holds one trained epoch. -/
def tfEnvNoVal : TFEnv where
  configOk := true
  trainDataExists := true
  trainDataParses := true
  valDataPath := none
  valDataExists := false
  valDataParses := true
  valRecords := []
  fitFails := false
  history := TFHistory.mk [1] [1] [] []

/-- A defaulted configuration with `save_total_limit` set to 1. -/
def cfgLimit1 : Config := setSaveTotalLimit cfg0 (some 1)

theorem pytorchTrainModel_cases (env : RunEnv) (outputDir : String)
    (cfg : Config) :
    pytorchTrainModel env outputDir cfg =
        ([], Except.error RunError.fileNotFound) ∨
    pytorchTrainModel env outputDir cfg =
        ([], Except.error RunError.formatError) ∨
    pytorchTrainModel env outputDir cfg =
        ([Event.loadTrainData], Except.error RunError.formatError) ∨
    pytorchTrainModel env outputDir cfg =
        (preTrainTrace env, Except.error RunError.trainingFailure) ∨
    pytorchTrainModel env outputDir cfg =
        (postSaveTrace env outputDir cfg, Except.error RunError.evalFailure) ∨
    pytorchTrainModel env outputDir cfg =
        (pytorchSuccessTrace env outputDir cfg,
         Except.ok (pytorchSuccessMetrics env)) := by
  unfold pytorchTrainModel
  split_ifs <;> simp

theorem abortClean_nil (outputDir : String) :
    abortClean outputDir [] = true := rfl

theorem abortClean_preTrainTrace (env : RunEnv) (outputDir : String) :
    abortClean outputDir (preTrainTrace env) = true := by
  cases hv : valDatasetLoaded env <;>
    simp [abortClean, preTrainTrace, hv, isPrintEvent, isMetricsFileWrite]

theorem abortClean_postSaveTrace (env : RunEnv) (outputDir : String)
    (cfg : Config) :
    abortClean outputDir (postSaveTrace env outputDir cfg) = true := by
  cases hv : valDatasetLoaded env <;>
    simp [abortClean, postSaveTrace, preTrainTrace, hv, isPrintEvent,
      isMetricsFileWrite]

theorem successTrace_no_print (env : RunEnv) (outputDir : String)
    (cfg : Config) :
    (pytorchSuccessTrace env outputDir cfg).filter isPrintEvent = [] := by
  cases hv : valDatasetLoaded env <;> cases ht : valDatasetTruthy env <;>
    simp [pytorchSuccessTrace, postSaveTrace, preTrainTrace, hv, ht,
      isPrintEvent, List.filter_append]

/-- Claim C1: if the training data path does not exist, or any other fatal
error occurs before the run completes, the PyTorch run aborts without writing
`training_metrics.json`, without printing a `METRICS:` line, and the process
exits with a non-zero status; conversely, on success exactly one line is
printed to standard output, and it is the `METRICS: ` line of the finalized
record. -/
theorem pytorch_process_contract (env : RunEnv) (outputDir : String)
    (cfg : Config) :
    (env.trainDataExists = false →
       (pytorchMain env outputDir cfg).1 = 1 ∧
       abortClean outputDir (pytorchMain env outputDir cfg).2 = true) ∧
    ((pytorchMain env outputDir cfg).1 ≠ 0 →
       abortClean outputDir (pytorchMain env outputDir cfg).2 = true) ∧
    ((pytorchMain env outputDir cfg).1 = 0 →
       (pytorchMain env outputDir cfg).2.filter isPrintEvent =
         [Event.printLine
           ("METRICS: " ++ jsonDumps (pytorchSuccessMetrics env))]) := by
  refine ⟨?_, ?_, ?_⟩
  · intro hex
    unfold pytorchMain pytorchTrainModel
    by_cases hc : env.configOk <;> simp [hc, hex, abortClean]
  · intro hne
    by_cases hc : env.configOk
    · rcases pytorchTrainModel_cases env outputDir cfg with h | h | h | h | h | h
      · simp [pytorchMain, hc, h, abortClean]
      · simp [pytorchMain, hc, h, abortClean]
      · simp [pytorchMain, hc, h, abortClean, isPrintEvent, isMetricsFileWrite]
      · simp [pytorchMain, hc, h, abortClean_preTrainTrace]
      · simp [pytorchMain, hc, h, abortClean_postSaveTrace]
      · exact absurd (by simp [pytorchMain, hc, h]) hne
    · simp [pytorchMain, hc, abortClean]
  · intro hz
    by_cases hc : env.configOk
    · rcases pytorchTrainModel_cases env outputDir cfg with h | h | h | h | h | h
      · simp [pytorchMain, hc, h] at hz
      · simp [pytorchMain, hc, h] at hz
      · simp [pytorchMain, hc, h] at hz
      · simp [pytorchMain, hc, h] at hz
      · simp [pytorchMain, hc, h] at hz
      · simp [pytorchMain, hc, h, List.filter_append, successTrace_no_print,
          isPrintEvent]
    · simp [pytorchMain, hc] at hz

/-- A PyTorch run environment whose training data path does not exist. -/
def envNoTrain : RunEnv where
  configOk := true
  trainDataExists := false
  trainDataParses := true
  valDataPath := none
  valDataExists := false
  valDataParses := true
  valRecords := []
  trainFails := false
  evalFails := false
  trainResult := TrainResult.mk 1 2 3 1
  evalLoss := 0

/-- Witness for C1: a run with a missing training data path exits 1 with a
clean trace, and a concrete successful run prints exactly the one `METRICS:`
line. -/
theorem pytorch_process_contract_witness :
    ((pytorchMain envNoTrain "out" cfg0).1 = 1 ∧
     abortClean "out" (pytorchMain envNoTrain "out" cfg0).2 = true) ∧
    (pytorchMain envOk "out" cfg0).2.filter isPrintEvent =
      [Event.printLine
        ("METRICS: " ++ jsonDumps (pytorchSuccessMetrics envOk))] :=
  ⟨(pytorch_process_contract envNoTrain "out" cfg0).1 rfl,
   (pytorch_process_contract envOk "out" cfg0).2.2 rfl⟩

/-- A record that carries an `output` field but no `input` field,
as parsed from the line `\x7b"output": "b"\x7d` of a `.jsonl` file. -/
def recNoInput : Record := [("output", "b")]

/-- A concrete line parser standing for `json.loads` on that line. -/
def plRec : String → Option Record := fun _ => some recNoInput

/-- A concrete document parser (unused on non-`.json` paths). -/
def pdRec : String → Option (List Record) := fun _ => none

/-- A concrete tokenizer standing in for the abstract tokenizer. -/
def tok0 : String → List Nat := fun s => List.replicate s.length 1

/-- Counterexample to C2: loading a training file whose single record lacks
the `input` field succeeds — `HumanizationDataset.__init__` performs no
schema validation, so no `SchemaError` is raised at load time.  The failure
surfaces only when the record is accessed: `__getitem__` on index 0 raises a
`KeyError` (during training, not before it). -/
theorem missing_field_load_succeeds_cex :
    hdInitData pdRec plRec "data.jsonl" ["\x7b\x22output\x22: \x22b\x22\x7d"] =
      some [recNoInput] ∧
    hdGetItem tok0 4 0 [recNoInput] 0 = Except.error RunError.keyError :=
  And.intro rfl rfl

/-- Claim C2, amended: a record lacking the `input` field or the `output`
field does not make the load fail; instead, accessing that record through
`__getitem__` fails with a `KeyError` when it is first fetched during
training. -/
theorem missing_field_fails_at_getitem (tok : String → List Nat)
    (L padTok : Nat) (data : List Record) (i : Nat) (item : Record)
    (hi : data.get? i = some item)
    (hmiss : lookupField item "input" = none ∨
             lookupField item "output" = none) :
    hdGetItem tok L padTok data i = Except.error RunError.keyError := by
  rcases hmiss with h | h
  · simp only [hdGetItem, hi, h]
  · simp only [hdGetItem, hi, h]
    cases lookupField item "input" <;> rfl

/-- Witness for the amended C2 at the concrete deficient record. -/
theorem missing_field_fails_at_getitem_witness :
    hdGetItem tok0 4 0 [recNoInput] 0 = Except.error RunError.keyError :=
  missing_field_fails_at_getitem tok0 4 0 [recNoInput] 0 recNoInput rfl
    (Or.inl rfl)

/-- Counterexample to C3: a run whose validation path is supplied and exists
but whose validation file holds zero records finalizes successfully with no
`eval_loss` key — the truthiness test `if val_dataset` uses the dataset
length, so an existing empty validation file disables evaluation even though
`val_data_path` is present and existing. -/
theorem empty_val_file_no_eval_loss_cex :
    envEmptyVal.valDataPath = some "val.json" ∧
    envEmptyVal.valDataExists = true ∧
    envEmptyVal.valRecords = [] ∧
    (pytorchTrainModel envEmptyVal "out" cfg0).2 =
      Except.ok (pytorchBaseMetrics envEmptyVal.trainResult) ∧
    "eval_loss" ∉ (pytorchBaseMetrics envEmptyVal.trainResult).map Prod.fst :=
  ⟨rfl, rfl, rfl, rfl, by decide⟩

/-- Claim C3, amended: in the PyTorch script the finalized MetricsRecord
contains `eval_loss` iff a validation dataset was loaded (non-empty truthy
path, existing file) and is non-empty — an existing but empty validation file
produces no `eval_*` key; the TensorFlow script never emits an `eval_loss`
key at all (its validation keys are `final_val_loss`/`final_val_accuracy`). -/
theorem eval_loss_iff_nonempty_val (env : RunEnv) (outputDir : String)
    (cfg : Config) (h : TFHistory) (b : Bool) :
    (∀ m, (pytorchTrainModel env outputDir cfg).2 = Except.ok m →
       (("eval_loss" ∈ m.map Prod.fst) ↔ valDatasetTruthy env = true)) ∧
    (∀ m, tfMetrics h b = some m → "eval_loss" ∉ m.map Prod.fst) := by
  constructor
  · intro m hm
    rcases pytorchTrainModel_cases env outputDir cfg with hh | hh | hh | hh | hh | hh <;>
      rw [hh] at hm <;> simp only [] at hm
    · exact absurd hm (by simp)
    · exact absurd hm (by simp)
    · exact absurd hm (by simp)
    · exact absurd hm (by simp)
    · exact absurd hm (by simp)
    · have hme : m = pytorchSuccessMetrics env := by
        exact (Except.ok.injEq _ _).mp hm.symm
      subst hme
      cases ht : valDatasetTruthy env <;>
        simp [pytorchSuccessMetrics, pytorchBaseMetrics, ht]
  · intro m hm
    unfold tfMetrics at hm
    repeat' split at hm
    all_goals simp_all [pytorchBaseMetrics]
    all_goals subst hm
    all_goals simp

/-- Witness for the amended C3 at a concrete successful run with a non-empty
validation set: its record does contain `eval_loss`. -/
theorem eval_loss_iff_nonempty_val_witness :
    ("eval_loss" ∈ (pytorchSuccessMetrics envVal).map Prod.fst) ↔
      valDatasetTruthy envVal = true :=
  (eval_loss_iff_nonempty_val envVal "out" cfg0 (TFHistory.mk [1] [1] [] [])
    false).1 (pytorchSuccessMetrics envVal) rfl

/-- Counterexample to C4: in a TensorFlow run with no validation data at all
(`val_data_path` omitted), the `fit` call still receives all three
validation-loss-monitoring callbacks — checkpointing on `val_loss`, early
stopping on `val_loss`, and LR reduction on `val_loss` — because
`callbacks_list` is built unconditionally; nothing is disabled. -/
theorem tf_callbacks_installed_without_val_cex :
    tfEnvNoVal.valDataPath = none ∧
    tfFitEvent "out" cfg0 ∈ (tfTrainModel tfEnvNoVal "out" cfg0).1 ∧
    tfCallbacksList "out" cfg0 =
      [KerasCallback.modelCheckpoint (tfCheckpointPath "out") "val_loss" true,
       KerasCallback.earlyStopping "val_loss" 3,
       KerasCallback.reduceLROnPlateau "val_loss" (1/2) 2] := by
  refine ⟨rfl, ?_, rfl⟩
  show tfFitEvent "out" cfg0 ∈ tfSuccessTrace tfEnvNoVal "out" cfg0
  simp [tfSuccessTrace, tfPostSaveTrace, tfPreTrace, tfValLoaded, tfEnvNoVal]

/-- Claim C4, amended: the TensorFlow script installs the three
validation-loss callbacks unconditionally — their construction does not
depend on whether validation data is present; the PyTorch script installs no
early-stopping and no LR-plateau callback at all, and only its evaluation
settings (`eval_steps`, `evaluation_strategy`, `load_best_model_at_end`)
depend on the presence of a truthy validation dataset; both scripts forward
the configured epoch count unchanged. -/
theorem callback_configuration_by_backend (outputDir : String) (cfg : Config)
    (v : Bool) :
    tfCallbacksList outputDir cfg =
      [KerasCallback.modelCheckpoint (tfCheckpointPath outputDir) "val_loss"
         true,
       KerasCallback.earlyStopping "val_loss"
         (cfg.early_stopping_patience.getD 3),
       KerasCallback.reduceLROnPlateau "val_loss" (1/2) 2] ∧
    pytorchTrainerCallbacks = [] ∧
    (mkTrainingArgs outputDir cfg v).evaluation_strategy =
      (if v then "steps" else "no") ∧
    (mkTrainingArgs outputDir cfg v).eval_steps =
      (if v then some (cfg.eval_steps.getD 500) else none) ∧
    (mkTrainingArgs outputDir cfg v).load_best_model_at_end = v ∧
    (mkTrainingArgs outputDir cfg v).num_train_epochs = cfg.epochs.getD 10 ∧
    tfFitEvent outputDir cfg =
      TFEvent.fit (tfCallbacksList outputDir cfg) (cfg.epochs.getD 10)
        (cfg.batch_size.getD 32) := by
  cases v <;> exact ⟨rfl, rfl, rfl, rfl, rfl, rfl, rfl⟩

theorem parseLines_some (f : String → Option α) (ls : List String) :
    ∀ recs, parseLines f ls = some recs →
      recs.length = ls.length ∧ ∀ i, recs.get? i = (ls.get? i).bind f := by
  induction ls with
  | nil =>
    intro recs h
    simp only [parseLines, Option.some.injEq] at h
    subst h
    simp
  | cons l ls ih =>
    intro recs h
    unfold parseLines at h
    cases hf : f l with
    | none => simp [hf] at h
    | some r =>
      simp only [hf] at h
      cases hp : parseLines f ls with
      | none => simp [hp] at h
      | some rs =>
        simp only [hp, Option.some.injEq] at h
        subst h
        obtain ⟨hlen, hidx⟩ := ih rs hp
        constructor
        · simp [hlen]
        · intro i
          cases i with
          | zero => simp [hf]
          | succ j => simpa using hidx j

/-- Claim C5: `load` parses the file as one structured document exactly when
the path ends in `.json`, and otherwise parses it line by line as one JSON
record per line; in the line-delimited case the returned sequence has one
record per file line, in file order. -/
theorem load_extension_dispatch (α : Type)
    (parseDoc : String → Option (List α)) (parseLine : String → Option α)
    (path : String) (ls : List String) :
    (strEndsWith path ".json" = true →
       load parseDoc parseLine path ls =
         parseDoc (String.intercalate "\n" ls)) ∧
    (strEndsWith path ".json" = false →
       load parseDoc parseLine path ls = parseLines parseLine ls ∧
       ∀ recs, load parseDoc parseLine path ls = some recs →
         recs.length = ls.length ∧
         ∀ i, recs.get? i = (ls.get? i).bind parseLine) := by
  constructor
  · intro h
    simp [load, h]
  · intro h
    have hl : load parseDoc parseLine path ls = parseLines parseLine ls := by
      simp [load, h]
    refine ⟨hl, ?_⟩
    intro recs hr
    rw [hl] at hr
    exact parseLines_some parseLine ls recs hr

/-- A concrete line parser for the C5 witness. -/
def plNat : String → Option Nat := fun s => some s.length

/-- A concrete document parser for the C5 witness. -/
def pdNat : String → Option (List Nat) := fun _ => some [7]

/-- Witness for C5: a `.jsonl` path goes through the line parser (two lines
give two records in order), a `.json` path through the document parser. -/
theorem load_extension_dispatch_witness :
    strEndsWith "d.jsonl" ".json" = false ∧
    load pdNat plNat "d.jsonl" ["a", "bb"] = some [1, 2] ∧
    strEndsWith "d.json" ".json" = true ∧
    load pdNat plNat "d.json" ["a"] =
      pdNat (String.intercalate "\n" ["a"]) := by
  refine ⟨by decide, ?_, by decide,
    (load_extension_dispatch Nat pdNat plNat "d.json" ["a"]).1 (by decide)⟩
  have h :=
    ((load_extension_dispatch Nat pdNat plNat "d.jsonl" ["a", "bb"]).2
      (by decide)).1
  rw [h]
  rfl

/-- Claim C6: `encode` is deterministic — identical example and identical
max length yield identical output — and the three returned sequences all
have exactly the configured length, enforced by truncation of over-long
token sequences and padding of short ones. -/
theorem encode_deterministic_fixed_length (tok : String → List Nat)
    (L padTok : Nat) (s t s2 t2 : String) :
    (encode tok L padTok s t).input_ids.length = L ∧
    (encode tok L padTok s t).attention_mask.length = L ∧
    (encode tok L padTok s t).label_ids.length = L ∧
    (s = s2 → t = t2 →
       encode tok L padTok s t = encode tok L padTok s2 t2) ∧
    (L ≤ (tok s).length →
       (encode tok L padTok s t).input_ids = (tok s).take L) ∧
    ((tok s).length ≤ L →
       (encode tok L padTok s t).input_ids =
         tok s ++ List.replicate (L - (tok s).length) padTok) := by
  refine ⟨?_, ?_, ?_, ?_, ?_, ?_⟩
  · simp [encode, padTruncate]
  · simp [encode, attnMask]
  · simp [encode, padTruncate]
  · intro h1 h2
    rw [h1, h2]
  · intro h
    simp [encode, padTruncate, List.length_take]
    omega
  · intro h
    simp [encode, padTruncate, List.take_of_length_le h]

/-- Witness for C6 at a concrete tokenizer, length 3, a short source (gets
padded) and a long source (gets truncated). -/
theorem encode_deterministic_fixed_length_witness :
    (encode tok0 3 0 "ab" "cdef").input_ids.length = 3 ∧
    (encode tok0 3 0 "ab" "cdef").attention_mask.length = 3 ∧
    (encode tok0 3 0 "ab" "cdef").label_ids.length = 3 ∧
    encode tok0 3 0 "ab" "cdef" = encode tok0 3 0 "ab" "cdef" ∧
    (encode tok0 3 0 "cdef" "x").input_ids = (tok0 "cdef").take 3 ∧
    (encode tok0 3 0 "ab" "x").input_ids =
      tok0 "ab" ++ List.replicate (3 - (tok0 "ab").length) 0 :=
  ⟨(encode_deterministic_fixed_length tok0 3 0 "ab" "cdef" "ab" "cdef").1,
   (encode_deterministic_fixed_length tok0 3 0 "ab" "cdef" "ab" "cdef").2.1,
   (encode_deterministic_fixed_length tok0 3 0 "ab" "cdef" "ab" "cdef").2.2.1,
   (encode_deterministic_fixed_length tok0 3 0 "ab" "cdef" "ab"
     "cdef").2.2.2.1 rfl rfl,
   (encode_deterministic_fixed_length tok0 3 0 "cdef" "x" "cdef"
     "x").2.2.2.2.1 (by decide),
   (encode_deterministic_fixed_length tok0 3 0 "ab" "x" "ab"
     "x").2.2.2.2.2 (by decide)⟩

theorem tfTrainModel_cases (env : TFEnv) (outputDir : String) (cfg : Config) :
    tfTrainModel env outputDir cfg =
        ([], Except.error RunError.fileNotFound) ∨
    tfTrainModel env outputDir cfg =
        ([], Except.error RunError.formatError) ∨
    tfTrainModel env outputDir cfg =
        ([TFEvent.loadTrainData], Except.error RunError.formatError) ∨
    tfTrainModel env outputDir cfg =
        (tfPreTrace env, Except.error RunError.trainingFailure) ∨
    tfTrainModel env outputDir cfg =
        (tfPostSaveTrace env outputDir cfg,
         Except.error RunError.indexError) ∨
    (∃ m, tfMetrics env.history (tfValTruthy env) = some m ∧
       tfTrainModel env outputDir cfg =
         (tfSuccessTrace env outputDir cfg, Except.ok m)) := by
  unfold tfTrainModel
  split_ifs
  · simp
  · simp
  · simp
  · simp
  · cases hm : tfMetrics env.history (tfValTruthy env) with
    | none => simp
    | some m => exact Or.inr (Or.inr (Or.inr (Or.inr (Or.inr ⟨m, rfl, rfl⟩))))

/-- The metrics record of the concrete successful TensorFlow run
`tfEnvNoVal`. -/
def mTF0 : MetricsRecord :=
  [("final_train_loss", 1), ("final_train_accuracy", 1),
   ("epochs_trained", ((1 : Nat) : Rat))]

/-- Counterexample to C7: a successful TensorFlow run finalizes a
MetricsRecord of exactly three fields — final train loss, final train
accuracy and epoch count — with no wall-clock-duration field and no
throughput field, so the record does not contain the four required fields. -/
theorem tf_metrics_three_fields_cex :
    (tfTrainModel tfEnvNoVal "out" cfg0).2 = Except.ok mTF0 ∧
    mTF0.map Prod.fst =
      ["final_train_loss", "final_train_accuracy", "epochs_trained"] ∧
    (tfMetrics tfEnvNoVal.history (tfValTruthy tfEnvNoVal)).map
        (fun m => m.length) = some 3 :=
  ⟨rfl, rfl, rfl⟩

/-- Claim C7, amended: every finalized PyTorch MetricsRecord carries exactly
the keys `train_loss`, `train_runtime`, `train_samples_per_second`, `epoch`
(plus `eval_loss` with validation) — the four required fields; every
finalized TensorFlow MetricsRecord instead carries exactly
`final_train_loss`, `final_train_accuracy`, `epochs_trained` (plus
`final_val_loss` and `final_val_accuracy` with validation), omitting
training duration and throughput. -/
theorem metrics_required_fields_by_backend (env : RunEnv)
    (outputDir : String) (cfg : Config) (h : TFHistory) (b : Bool) :
    (∀ m, (pytorchTrainModel env outputDir cfg).2 = Except.ok m →
       m.map Prod.fst =
         ["train_loss", "train_runtime", "train_samples_per_second",
          "epoch"] ++
           (if valDatasetTruthy env then ["eval_loss"] else [])) ∧
    (∀ m, tfMetrics h b = some m →
       m.map Prod.fst =
         ["final_train_loss", "final_train_accuracy", "epochs_trained"] ++
           (if b then ["final_val_loss", "final_val_accuracy"] else [])) := by
  constructor
  · intro m hm
    rcases pytorchTrainModel_cases env outputDir cfg with
      hh | hh | hh | hh | hh | hh <;> rw [hh] at hm
    · exact absurd hm (by simp)
    · exact absurd hm (by simp)
    · exact absurd hm (by simp)
    · exact absurd hm (by simp)
    · exact absurd hm (by simp)
    · have hme : m = pytorchSuccessMetrics env :=
        (Except.ok.injEq _ _).mp hm.symm
      subst hme
      cases ht : valDatasetTruthy env <;>
        simp [pytorchSuccessMetrics, pytorchBaseMetrics, ht]
  · intro m hm
    unfold tfMetrics at hm
    repeat' split at hm
    all_goals simp_all
    all_goals subst hm
    all_goals simp

/-- Witness for the amended C7 at a concrete successful PyTorch run. -/
theorem metrics_required_fields_by_backend_witness :
    (pytorchSuccessMetrics envOk).map Prod.fst =
      ["train_loss", "train_runtime", "train_samples_per_second", "epoch"] ++
        (if valDatasetTruthy envOk then ["eval_loss"] else []) :=
  (metrics_required_fields_by_backend envOk "out" cfg0
    (TFHistory.mk [1] [1] [] []) false).1 (pytorchSuccessMetrics envOk) rfl

/-- Counterexample to C8: in a concrete successful PyTorch run with
validation data, the final model save (`trainer.save_model`, line 131, at
trace position 3) happens strictly before the final evaluation pass
(`trainer.evaluate`, line 143, at position 5) and before the metrics-file
write (position 6), so Saving is neither after the evaluation nor the last
action before completion. -/
theorem save_before_final_eval_cex :
    (pytorchTrainModel envVal "out" cfg0).1.get? 3 = some Event.saveModel ∧
    (pytorchTrainModel envVal "out" cfg0).1.get? 5 = some Event.evaluate ∧
    (pytorchTrainModel envVal "out" cfg0).1.get? 6 =
      some (Event.writeFile (metricsPath "out")) ∧
    (pytorchTrainModel envVal "out" cfg0).1.length = 7 ∧
    (pytorchTrainModel envVal "out" cfg0).2 =
      Except.ok (pytorchSuccessMetrics envVal) :=
  ⟨rfl, rfl, rfl, rfl, rfl⟩

/-- Claim C8, amended: in every successful PyTorch run the final model save
happens immediately after training and strictly before the final evaluation
pass (when one occurs); the last `train_model` action is the metrics-file
write, after which only the `METRICS:` print of `main` follows. -/
theorem successful_run_event_order (env : RunEnv) (outputDir : String)
    (cfg : Config) :
    ∀ m, (pytorchTrainModel env outputDir cfg).2 = Except.ok m →
      (pytorchTrainModel env outputDir cfg).1 =
        preTrainTrace env ++
          [Event.trainerTrain
             (mkTrainingArgs outputDir cfg (valDatasetTruthy env)),
           Event.saveModel, Event.saveTokenizer] ++
          (if valDatasetTruthy env then [Event.evaluate] else []) ++
          [Event.writeFile (metricsPath outputDir)] := by
  intro m hm
  rcases pytorchTrainModel_cases env outputDir cfg with
    hh | hh | hh | hh | hh | hh <;> rw [hh] at hm
  · exact absurd hm (by simp)
  · exact absurd hm (by simp)
  · exact absurd hm (by simp)
  · exact absurd hm (by simp)
  · exact absurd hm (by simp)
  · rw [hh]
    simp [pytorchSuccessTrace, postSaveTrace, List.append_assoc]

/-- Witness for the amended C8 at the concrete run with validation data. -/
theorem successful_run_event_order_witness :
    (pytorchTrainModel envVal "out" cfg0).1 =
      preTrainTrace envVal ++
        [Event.trainerTrain
           (mkTrainingArgs "out" cfg0 (valDatasetTruthy envVal)),
         Event.saveModel, Event.saveTokenizer] ++
        (if valDatasetTruthy envVal then [Event.evaluate] else []) ++
        [Event.writeFile (metricsPath "out")] :=
  successful_run_event_order envVal "out" cfg0
    (pytorchSuccessMetrics envVal) rfl

/-- Counterexample to C9: with `save_total_limit` configured as 1, two
evaluation rounds with improving validation losses leave two checkpoint
artifacts on disk in the TensorFlow run — the limit is exceeded because the
TensorFlow script never reads `save_total_limit`: its callback construction
is identical under the limit-1 and the default configuration, and nothing
deletes checkpoint files. -/
theorem checkpoint_limit_ignored_tf_cex :
    cfgLimit1.save_total_limit = some 1 ∧
    (tfCheckpointFiles [10, 5]).length = 2 ∧
    tfCallbacksList "out" cfgLimit1 = tfCallbacksList "out" cfg0 :=
  ⟨rfl, rfl, rfl⟩

/-- Claim C9, amended: the PyTorch script forwards `save_total_limit`
(default 3) to the backend `TrainingArguments`, leaving retention to the
opaque backend trainer; the TensorFlow script ignores the key entirely — its
callback list is invariant under changes of `save_total_limit`, and its
checkpoint artifacts (one distinctly-named file per best-so-far validation
loss, never deleted) can therefore exceed any configured limit. -/
theorem save_total_limit_forwarding (outputDir : String) (cfg : Config)
    (v : Bool) (k : Option Nat) :
    (mkTrainingArgs outputDir cfg v).save_total_limit =
      cfg.save_total_limit.getD 3 ∧
    tfCallbacksList outputDir (setSaveTotalLimit cfg k) =
      tfCallbacksList outputDir cfg ∧
    (setSaveTotalLimit cfg k).save_total_limit = k :=
  ⟨rfl, rfl, rfl⟩

/-- Claim C10: in every successful run of either script, the metrics record
is written to `<output_dir>/training_metrics.json` strictly before the
`METRICS:` line is printed — the full output trace ends with the file write
immediately followed by the print. -/
theorem metrics_file_written_before_metrics_line (env : RunEnv)
    (tenv : TFEnv) (outputDir : String) (cfg : Config) :
    ((pytorchMain env outputDir cfg).1 = 0 →
       (pytorchMain env outputDir cfg).2 =
         (postSaveTrace env outputDir cfg ++
            (if valDatasetTruthy env then [Event.evaluate] else [])) ++
           [Event.writeFile (metricsPath outputDir),
            Event.printLine
              ("METRICS: " ++ jsonDumps (pytorchSuccessMetrics env))]) ∧
    (∀ m, (tfMain tenv outputDir cfg).1 = 0 →
       (tfTrainModel tenv outputDir cfg).2 = Except.ok m →
       (tfMain tenv outputDir cfg).2 =
         tfPostSaveTrace tenv outputDir cfg ++
           [TFEvent.writeFile (metricsPath outputDir),
            TFEvent.printLine ("METRICS: " ++ jsonDumps m)]) := by
  constructor
  · intro hz
    by_cases hc : env.configOk
    · rcases pytorchTrainModel_cases env outputDir cfg with
        hh | hh | hh | hh | hh | hh
      · simp [pytorchMain, hc, hh] at hz
      · simp [pytorchMain, hc, hh] at hz
      · simp [pytorchMain, hc, hh] at hz
      · simp [pytorchMain, hc, hh] at hz
      · simp [pytorchMain, hc, hh] at hz
      · simp [pytorchMain, hc, hh, pytorchSuccessTrace, List.append_assoc]
    · simp [pytorchMain, hc] at hz
  · intro m hz hm
    by_cases hc : tenv.configOk
    · rcases tfTrainModel_cases tenv outputDir cfg with
        hh | hh | hh | hh | hh | hh
      · simp [tfMain, hc, hh] at hz
      · simp [tfMain, hc, hh] at hz
      · simp [tfMain, hc, hh] at hz
      · simp [tfMain, hc, hh] at hz
      · simp [tfMain, hc, hh] at hz
      · obtain ⟨m2, hm2, hh2⟩ := hh
        rw [hh2] at hm
        have hmm : m2 = m := by simpa using hm
        subst hmm
        simp [tfMain, hc, hh2, tfSuccessTrace, List.append_assoc]
    · simp [tfMain, hc] at hz

/-- Witness for C10 at concrete successful runs of both scripts. -/
theorem metrics_file_written_before_metrics_line_witness :
    (pytorchMain envOk "out" cfg0).2 =
      (postSaveTrace envOk "out" cfg0 ++
         (if valDatasetTruthy envOk then [Event.evaluate] else [])) ++
        [Event.writeFile (metricsPath "out"),
         Event.printLine
           ("METRICS: " ++ jsonDumps (pytorchSuccessMetrics envOk))] ∧
    (tfMain tfEnvNoVal "out" cfg0).2 =
      tfPostSaveTrace tfEnvNoVal "out" cfg0 ++
        [TFEvent.writeFile (metricsPath "out"),
         TFEvent.printLine ("METRICS: " ++ jsonDumps mTF0)] :=
  ⟨(metrics_file_written_before_metrics_line envOk tfEnvNoVal "out" cfg0).1
     rfl,
   (metrics_file_written_before_metrics_line envOk tfEnvNoVal "out" cfg0).2
     mTF0 rfl rfl⟩
